import Mathlib

/-!
Shallow embedding of pyCFG (src/pyCFG.py): instruction and jump records,
basic blocks, the control-flow-graph state machine, and the dot serializer.
Python dicts are modelled as insertion-ordered association lists; the object
identity of the current block is modelled by its position in the `_nodes`
list; the process-wide `itertools.count()` id source of `BasicBlock.__id` is
modelled as an explicit counter threaded through every operation; fallible
operations return `Except PyErr`.
-/

namespace PyCFG

/-- Python exception classes that the embedded code can raise. -/
inductive PyErr where
  | typeError
  | assertionError
  | indexError
deriving DecidableEq

/-- Insertion-ordered dictionary lookup (Python `dict.get`). -/
def dictGet [DecidableEq α] (d : List (α × β)) (k : α) : Option β :=
  match d with
  | [] => none
  | p :: rest => if p.1 = k then some p.2 else dictGet rest k

/-- Python `k in d` membership test on a dict. -/
def dictContains [DecidableEq α] (d : List (α × β)) (k : α) : Bool :=
  match d with
  | [] => false
  | p :: rest => if p.1 = k then true else dictContains rest k

/-- Python dict assignment `d[k] = v`: update in place keeping the key's
insertion position, or append a fresh key at the end. -/
def dictSet [DecidableEq α] (d : List (α × β)) (k : α) (v : β) : List (α × β) :=
  match d with
  | [] => [(k, v)]
  | p :: rest => if p.1 = k then (k, v) :: rest else p :: dictSet rest k v

/-- JumpType enum from the source. -/
inductive JumpType where
  | JMP
  | JCC_TAKEN
  | JCC_NOT_TAKEN
deriving DecidableEq

/-- Instruction record (dataclass `Instruction`). -/
structure Instruction where
  name : String
  operand : String
deriving DecidableEq

/-- Jump record (dataclass `Jump`). -/
structure Jump where
  name : String
  success_address : Int
  jump_type : JumpType
  failure_address : Option Int
deriving DecidableEq

/-- Smart constructor for `Jump`, mirroring `Jump.__post_init__`: a
conditional jump type with an absent failure address raises `TypeError`
before any instance exists; the remaining field `isinstance` checks are
satisfied by construction in this typed embedding. -/
def Jump.make (name : String) (success_address : Int) (jump_type : JumpType)
    (failure_address : Option Int) : Except PyErr Jump :=
  if (jump_type = JumpType.JCC_NOT_TAKEN ∨ jump_type = JumpType.JCC_TAKEN)
      ∧ failure_address = none then
    .error .typeError
  else
    .ok ⟨name, success_address, jump_type, failure_address⟩

/-- A step handed to `execute`: `Instruction | Jump`. -/
inductive Record where
  | instr (i : Instruction)
  | jump (j : Jump)
deriving DecidableEq

/-- BasicBlock dataclass.  `id` models the name-mangled `__id` drawn from the
process-wide counter; `block` models `__block` (insertion-ordered dict from
address to the stored record); `edges` models `__edges` (dict from the block
index returned by `__query_block_or_create` to the traversal count). -/
structure BasicBlock where
  start : Int
  id : Nat
  block : List (Int × Record)
  edges : List (Nat × Nat)
deriving DecidableEq

/-- BasicBlock construction: `BasicBlock(start)` draws the next id from the
process-wide counter (returned incremented). -/
def BasicBlock.make (counter : Nat) (start : Int) : BasicBlock × Nat :=
  (⟨start, counter, [], []⟩, counter + 1)

/-- BasicBlock.add_instruction: unconditionally assigns
`self.__block[addr] = astuple(instr_or_jmp)`. -/
def BasicBlock.add_instruction (b : BasicBlock) (addr : Int) (r : Record) : BasicBlock :=
  { b with block := dictSet b.block addr r }

/-- BasicBlock.add_edge: `self.__edges[edge] = self.__edges.get(edge, 0) + traversed`
(a Python bool adds 1 or 0). -/
def BasicBlock.add_edge (b : BasicBlock) (edge : Nat) (traversed : Bool) : BasicBlock :=
  let newCount := (dictGet b.edges edge).getD 0 + (if traversed then 1 else 0)
  { b with edges := dictSet b.edges edge newCount }

/-- BasicBlock.addresses: the keys of the instruction dict, in insertion order. -/
def BasicBlock.addresses (b : BasicBlock) : List Int :=
  b.block.map (fun p => p.1)

/-- BasicBlock.edge_strings: `(edge_num, edge_index, edge_traversals)` triples
enumerating the edge dict in insertion order. -/
def BasicBlock.edge_strings (b : BasicBlock) : List (Nat × Nat × Nat) :=
  b.edges.enum.map (fun p => (p.1, p.2.1, p.2.2))

/-- Python dict_keys view, as returned by `BasicBlock.addresses`. -/
structure DictKeysView where
  keys : List Int
deriving DecidableEq

/-- Python `dict_keys` does not implement `__getitem__`: subscripting a keys
view raises `TypeError` regardless of the index. -/
def DictKeysView.subscript (_k : DictKeysView) (_i : Int) : Except PyErr Int :=
  .error .typeError

/-- The keys view `self.__block.keys()` of a block. -/
def BasicBlock.addressesView (b : BasicBlock) : DictKeysView :=
  ⟨b.block.map (fun p => p.1)⟩

/-- BasicBlock.end property: `int(self.addresses[-1])`, i.e. subscripting the
dict-keys view (which raises before `int` is ever applied). -/
def BasicBlock.end' (b : BasicBlock) : Except PyErr Int :=
  match b.addressesView.subscript (-1) with
  | .error e => .error e
  | .ok a => .ok a

/-- ControlFlowGraph state: `_nodes` in creation order, and the position of
`_curr_node` inside `_nodes` (object identity modelled by list position). -/
structure ControlFlowGraph where
  _nodes : List BasicBlock
  curr : Nat
deriving DecidableEq

/-- ControlFlowGraph.__init__: one block at the entry point, cursor on it. -/
def ControlFlowGraph.new (counter : Nat) (entry_point : Int) :
    ControlFlowGraph × Nat :=
  let p := BasicBlock.make counter entry_point
  (⟨[p.1], 0⟩, p.2)

/-- The `nodes` property: `reversed(self._nodes)`. -/
def ControlFlowGraph.nodes (g : ControlFlowGraph) : List BasicBlock :=
  g._nodes.reverse

/-- Replace the element at position `i` by `f` of it (identity out of range);
models in-place mutation of one aliased block object. -/
def setAt (l : List BasicBlock) (i : Nat) (f : BasicBlock → BasicBlock) :
    List BasicBlock :=
  match l, i with
  | [], _ => []
  | b :: rest, 0 => f b :: rest
  | b :: rest, n + 1 => b :: setAt rest n f

/-- Mutate the current block in place (`self._curr_node.add_...`). -/
def ControlFlowGraph.modifyCurr (g : ControlFlowGraph)
    (f : BasicBlock → BasicBlock) : ControlFlowGraph :=
  { g with _nodes := setAt g._nodes g.curr f }

/-- The `for i, node in enumerate(self.nodes)` search loop of
`__query_block_or_create`, with its running index. -/
def findLoop (nodes : List BasicBlock) (start_addr : Int) (i : Nat) :
    Option (Nat × BasicBlock) :=
  match nodes with
  | [] => none
  | b :: rest =>
      if b.start = start_addr then some (i, b) else findLoop rest start_addr (i + 1)

/-- ControlFlowGraph.__query_block_or_create.  Returns
`((python_index, forward_position), graph, counter)`: `python_index` is the
value the source returns (the index in the reversed enumeration when found,
`len(self._nodes)` when created) and is what gets stored as an edge key;
`forward_position` is the position in `_nodes` of the returned block object,
used to model the alias `self._curr_node = block`. -/
def ControlFlowGraph.query_block_or_create (counter : Nat)
    (g : ControlFlowGraph) (start_addr : Int) :
    (Nat × Nat) × ControlFlowGraph × Nat :=
  match findLoop g.nodes start_addr 0 with
  | some p => ((p.1, g._nodes.length - 1 - p.1), g, counter)
  | none =>
      let index := g._nodes.length
      let q := BasicBlock.make counter start_addr
      ((index, index), { g with _nodes := g._nodes ++ [q.1] }, q.2)

/-- Step 1 of `execute`: record the step into the current block unless the
address is already present
(`if program_counter not in self._curr_node.addresses: ...add_instruction`). -/
def ControlFlowGraph.recordStep (g : ControlFlowGraph) (cur : BasicBlock)
    (program_counter : Int) (instruction : Record) : ControlFlowGraph :=
  if dictContains cur.block program_counter then g
  else g.modifyCurr (fun b => b.add_instruction program_counter instruction)

/-- The `case JumpType.JMP` arm of `execute`: query the success target, add a
traversed edge under the returned index, move the cursor to the returned
block. -/
def ControlFlowGraph.doJmp (counter : Nat) (g1 : ControlFlowGraph) (sa : Int) :
    ControlFlowGraph × Nat :=
  let q := ControlFlowGraph.query_block_or_create counter g1 sa
  let g3 := q.2.1.modifyCurr (fun b => b.add_edge q.1.1 true)
  ({ g3 with curr := q.1.2 }, q.2.2)

/-- The `case JumpType.JCC_TAKEN` arm of `execute`: failure edge first with
`traversed=False`, then success edge with `traversed=True`, cursor to the
success block. -/
def ControlFlowGraph.doJccTaken (counter : Nat) (g1 : ControlFlowGraph)
    (fa sa : Int) : ControlFlowGraph × Nat :=
  let q1 := ControlFlowGraph.query_block_or_create counter g1 fa
  let g3 := q1.2.1.modifyCurr (fun b => b.add_edge q1.1.1 false)
  let q2 := ControlFlowGraph.query_block_or_create q1.2.2 g3 sa
  let g5 := q2.2.1.modifyCurr (fun b => b.add_edge q2.1.1 true)
  ({ g5 with curr := q2.1.2 }, q2.2.2)

/-- The `case JumpType.JCC_NOT_TAKEN` arm of `execute`: failure edge first
with `traversed=True`, then success edge with `traversed=False`, cursor to
the failure block. -/
def ControlFlowGraph.doJccNotTaken (counter : Nat) (g1 : ControlFlowGraph)
    (fa sa : Int) : ControlFlowGraph × Nat :=
  let q1 := ControlFlowGraph.query_block_or_create counter g1 fa
  let g3 := q1.2.1.modifyCurr (fun b => b.add_edge q1.1.1 true)
  let q2 := ControlFlowGraph.query_block_or_create q1.2.2 g3 sa
  let g5 := q2.2.1.modifyCurr (fun b => b.add_edge q2.1.1 false)
  ({ g5 with curr := q1.1.2 }, q2.2.2)

/-- ControlFlowGraph.execute: the branch state machine.  The leading
`assert(program_counter >= self._curr_node.start)` raises `AssertionError`
before any mutation.  For each jump kind the sequence of queries, edge
registrations and the cursor move mirrors the `match` statement of the
source line by line (`doJmp`, `doJccTaken`, `doJccNotTaken`).  A conditional
jump with an absent failure address is unconstructible through `Jump.make`
(its `__post_init__` raises first); that unreachable branch is mapped to
`TypeError`. -/
def ControlFlowGraph.execute (counter : Nat) (g : ControlFlowGraph)
    (program_counter : Int) (instruction : Record) :
    Except PyErr (ControlFlowGraph × Nat) :=
  match g._nodes.get? g.curr with
  | none => .error .indexError
  | some cur =>
    if program_counter < cur.start then .error .assertionError
    else
      let g1 := g.recordStep cur program_counter instruction
      match instruction with
      | .instr _ => .ok (g1, counter)
      | .jump j =>
        match j.jump_type with
        | .JMP => .ok (ControlFlowGraph.doJmp counter g1 j.success_address)
        | .JCC_TAKEN =>
            match j.failure_address with
            | none => .error .typeError
            | some fa => .ok (ControlFlowGraph.doJccTaken counter g1 fa j.success_address)
        | .JCC_NOT_TAKEN =>
            match j.failure_address with
            | none => .error .typeError
            | some fa => .ok (ControlFlowGraph.doJccNotTaken counter g1 fa j.success_address)

/-- One `execute` call inside a caller-driven sequence: a raised exception
aborts the call before (assert) any mutation, leaving the state unchanged. -/
def step (s : ControlFlowGraph × Nat) (call : Int × Record) :
    ControlFlowGraph × Nat :=
  match ControlFlowGraph.execute s.2 s.1 call.1 call.2 with
  | .ok r => r
  | .error _ => s

/-- A sequence of `execute` calls, in order. -/
def runTrace (s : ControlFlowGraph × Nat) (calls : List (Int × Record)) :
    ControlFlowGraph × Nat :=
  calls.foldl step s

/-- Python `hex` on a non-negative value: lowercase digits after `0x`. -/
def natHex (n : Nat) : String :=
  String.mk (Nat.toDigits 16 n)

/-- Python `hex` on an int (negative values render as `-0x...`). -/
def hexStr (i : Int) : String :=
  if i < 0 then "-0x" ++ natHex i.natAbs else "0x" ++ natHex i.toNat

/-- One line of `BasicBlock.__repr__`: the stored tuple's second component is
an operand string for an `Instruction` (where `hex` raises and the `except`
branch runs) and the success address for a `Jump` (where `hex` succeeds);
the trailing `\\n` of the f-string is the literal two-character sequence. -/
def reprEntry (addr : Int) (r : Record) : String :=
  match r with
  | .instr it => hexStr addr ++ "   " ++ it.name ++ "   " ++ it.operand ++ "\\n"
  | .jump j => hexStr addr ++ "   " ++ j.name ++ "   " ++ hexStr j.success_address ++ "\\n"

/-- BasicBlock.__repr__: one escaped line per stored instruction, in
insertion order. -/
def BasicBlock.reprStr (b : BasicBlock) : String :=
  b.block.foldl (fun s p => s ++ reprEntry p.1 p.2) ""

/-- One node statement of `ControlFlowGraph.dot`, exactly as written
(including the sentinel `Unexplored` label for an empty block and the
label-dependent box color). -/
def nodeLine (b : BasicBlock) : String :=
  let box_label := if b.reprStr = "" then "Unexplored" else b.reprStr
  let box_color := if box_label = "Unexplored" then "[color=\"webmaroon\"]"
    else "[color=\"gray0\"]"
  "\tnode_" ++ toString b.start ++ " [shape =box][label=\"" ++ box_label ++ "\"]"
    ++ box_color ++ "[penwidth=2][fontname = \"Comic Sans MS\"]\n"

/-- Effectful map over a list in `Except`, stopping at the first raised
exception (a Python loop whose body may raise). -/
def mapME (f : α → Except PyErr β) : List α → Except PyErr (List β)
  | [] => .ok []
  | a :: l =>
    match f a with
    | .error e => .error e
    | .ok b =>
      match mapME f l with
      | .error e => .error e
      | .ok bs => .ok (b :: bs)

/-- One edge statement of `ControlFlowGraph.dot`: the stored edge key is
resolved through `self._nodes[edge_index]` (creation-order list indexing;
out of range raises `IndexError`), and the color comes from the source
block's out-degree and the edge's enumeration position. -/
def edgeLine (g : ControlFlowGraph) (src : BasicBlock) (number_of_edges : Nat)
    (e : Nat × Nat × Nat) : Except PyErr String :=
  match g._nodes.get? e.2.1 with
  | none => .error .indexError
  | some tgt =>
      let edge_color := if number_of_edges = 1 then "blue"
        else if number_of_edges = 2 ∧ e.1 = 0 then "red" else "green"
      .ok ("\tnode_" ++ toString src.start ++ " -> node_" ++ toString tgt.start
        ++ " [label=\"" ++ toString e.2.2 ++ "\"][color=\"" ++ edge_color ++ "\"]\n")

/-- The edge statements one source block contributes, in registration order. -/
def ControlFlowGraph.edgeLinesFor (g : ControlFlowGraph) (b : BasicBlock) :
    Except PyErr (List String) :=
  mapME (edgeLine g b b.edges.length) b.edge_strings

/-- The node statements of `ControlFlowGraph.dot`, one per block, emitted by
iterating `self._nodes` (creation order). -/
def ControlFlowGraph.dotNodeLines (g : ControlFlowGraph) : List String :=
  g._nodes.map nodeLine

/-- ControlFlowGraph.dot: the lines written to `output.dot`, in order. -/
def ControlFlowGraph.dot (g : ControlFlowGraph) : Except PyErr (List String) :=
  match mapME g.edgeLinesFor g._nodes with
  | .error e => .error e
  | .ok ess =>
      .ok (["digraph pyCFG \x7b\n"] ++ g.dotNodeLines ++ ["\n"] ++ ess.flatten
        ++ ["\x7d\n"])

/-! Helper lemmas about the embedding. -/

theorem setAt_length (l : List BasicBlock) (i : Nat) (f : BasicBlock → BasicBlock) :
    (setAt l i f).length = l.length := by
  induction l generalizing i with
  | nil => rfl
  | cons b rest ih =>
    cases i with
    | zero => rfl
    | succ n => simpa [setAt] using ih n

theorem setAt_map {α : Type} (p : BasicBlock → α) (l : List BasicBlock) (i : Nat)
    (f : BasicBlock → BasicBlock) (hf : ∀ b, p (f b) = p b) :
    (setAt l i f).map p = l.map p := by
  induction l generalizing i with
  | nil => rfl
  | cons b rest ih =>
    cases i with
    | zero => simp [setAt, hf]
    | succ n => simp [setAt, ih n]

theorem setAt_get?_map {α : Type} (p : BasicBlock → α) (l : List BasicBlock)
    (i j : Nat) (f : BasicBlock → BasicBlock) (hf : ∀ b, p (f b) = p b) :
    ((setAt l i f).get? j).map p = (l.get? j).map p := by
  calc ((setAt l i f).get? j).map p
      = ((setAt l i f).map p).get? j := (List.get?_map p _ j).symm
    _ = (l.map p).get? j := by rw [setAt_map p l i f hf]
    _ = (l.get? j).map p := List.get?_map p l j

theorem findLoop_none (l : List BasicBlock) (a : Int) (i : Nat)
    (h : findLoop l a i = none) : ∀ b ∈ l, b.start ≠ a := by
  induction l generalizing i with
  | nil => intro b hb; simp at hb
  | cons c rest ih =>
    intro b hb
    unfold findLoop at h
    by_cases hc : c.start = a
    · simp [hc] at h
    · rw [if_neg hc] at h
      rcases List.mem_cons.mp hb with h1 | h1
      · subst h1; exact hc
      · exact ih (i + 1) h b h1

theorem findLoop_some (l : List BasicBlock) (a : Int) (i : Nat) (p : Nat × BasicBlock)
    (h : findLoop l a i = some p) :
    i ≤ p.1 ∧ l.get? (p.1 - i) = some p.2 ∧ p.2.start = a := by
  induction l generalizing i with
  | nil => simp [findLoop] at h
  | cons c rest ih =>
    unfold findLoop at h
    by_cases hc : c.start = a
    · rw [if_pos hc] at h
      have hp : (i, c) = p := by injection h
      subst hp
      exact ⟨le_refl i, by simp, hc⟩
    · rw [if_neg hc] at h
      obtain ⟨h1, h2, h3⟩ := ih (i + 1) h
      refine ⟨by omega, ?_, h3⟩
      have hgt : p.1 - i = (p.1 - (i + 1)) + 1 := by omega
      rw [hgt]
      simpa using h2

theorem query_cases (c : Nat) (g : ControlFlowGraph) (a : Int) :
    ((ControlFlowGraph.query_block_or_create c g a).2.1 = g ∧
      (ControlFlowGraph.query_block_or_create c g a).2.2 = c) ∨
    ((ControlFlowGraph.query_block_or_create c g a).2.1._nodes
        = g._nodes ++ [⟨a, c, [], []⟩] ∧
      (ControlFlowGraph.query_block_or_create c g a).2.1.curr = g.curr ∧
      (∀ b ∈ g._nodes, b.start ≠ a) ∧
      (ControlFlowGraph.query_block_or_create c g a).2.2 = c + 1) := by
  rcases hq : findLoop g.nodes a 0 with _ | p
  · right
    have hnone : ∀ b ∈ g.nodes, b.start ≠ a := findLoop_none _ _ _ hq
    refine ⟨?_, ?_, ?_, ?_⟩
    · simp [ControlFlowGraph.query_block_or_create, hq, BasicBlock.make]
    · simp [ControlFlowGraph.query_block_or_create, hq]
    · intro b hb
      exact hnone b (List.mem_reverse.mpr hb)
    · simp [ControlFlowGraph.query_block_or_create, hq, BasicBlock.make]
  · left
    constructor <;> simp [ControlFlowGraph.query_block_or_create, hq]

theorem query_curr (c : Nat) (g : ControlFlowGraph) (a : Int) :
    (ControlFlowGraph.query_block_or_create c g a).2.1.curr = g.curr := by
  rcases query_cases c g a with ⟨h1, -⟩ | ⟨-, h2, -, -⟩
  · rw [h1]
  · exact h2

theorem query_len_le (c : Nat) (g : ControlFlowGraph) (a : Int) :
    g._nodes.length ≤ (ControlFlowGraph.query_block_or_create c g a).2.1._nodes.length := by
  rcases query_cases c g a with ⟨h1, -⟩ | ⟨h1, -, -, -⟩
  · rw [h1]
  · rw [h1]; simp

theorem query_get?_preserve (c : Nat) (g : ControlFlowGraph) (a : Int) (j : Nat)
    (hj : j < g._nodes.length) :
    (ControlFlowGraph.query_block_or_create c g a).2.1._nodes.get? j
      = g._nodes.get? j := by
  rcases query_cases c g a with ⟨h1, -⟩ | ⟨h1, -, -, -⟩
  · rw [h1]
  · rw [h1]; exact List.get?_append hj

theorem query_fwd_lt (c : Nat) (g : ControlFlowGraph) (a : Int) :
    (ControlFlowGraph.query_block_or_create c g a).1.2
      < (ControlFlowGraph.query_block_or_create c g a).2.1._nodes.length := by
  rcases hq : findLoop g.nodes a 0 with _ | p
  · simp [ControlFlowGraph.query_block_or_create, hq, BasicBlock.make]
  · obtain ⟨-, h2, -⟩ := findLoop_some _ _ _ _ hq
    simp only [Nat.sub_zero] at h2
    have hlt : p.1 < g._nodes.length := by
      have := List.get?_eq_some.mp h2
      obtain ⟨hb, -⟩ := this
      simpa [ControlFlowGraph.nodes] using hb
    simp only [ControlFlowGraph.query_block_or_create, hq]
    omega

theorem query_fwd_start (c : Nat) (g : ControlFlowGraph) (a : Int) :
    ((ControlFlowGraph.query_block_or_create c g a).2.1._nodes.get?
      (ControlFlowGraph.query_block_or_create c g a).1.2).map BasicBlock.start
      = some a := by
  rcases hq : findLoop g.nodes a 0 with _ | p
  · simp [ControlFlowGraph.query_block_or_create, hq, BasicBlock.make,
      List.get?_concat_length]
  · obtain ⟨-, h2, h3⟩ := findLoop_some _ _ _ _ hq
    simp only [Nat.sub_zero] at h2
    have hlt : p.1 < g._nodes.length := by
      have := List.get?_eq_some.mp h2
      obtain ⟨hb, -⟩ := this
      simpa [ControlFlowGraph.nodes] using hb
    have hrev : g._nodes.reverse.get? p.1
        = g._nodes.get? (g._nodes.length - 1 - p.1) := by
      apply List.get?_reverse
      exact hlt
    have h2' : g._nodes.get? (g._nodes.length - 1 - p.1) = some p.2 := by
      rw [← hrev]
      simpa [ControlFlowGraph.nodes] using h2
    simp only [ControlFlowGraph.query_block_or_create, hq, h2']
    simp [h3]

theorem add_instruction_start (b : BasicBlock) (a : Int) (r : Record) :
    (b.add_instruction a r).start = b.start := rfl

theorem add_instruction_id (b : BasicBlock) (a : Int) (r : Record) :
    (b.add_instruction a r).id = b.id := rfl

theorem add_edge_start (b : BasicBlock) (e : Nat) (t : Bool) :
    (b.add_edge e t).start = b.start := rfl

theorem add_edge_id (b : BasicBlock) (e : Nat) (t : Bool) :
    (b.add_edge e t).id = b.id := rfl

theorem add_edge_block (b : BasicBlock) (e : Nat) (t : Bool) :
    (b.add_edge e t).block = b.block := rfl

theorem modifyCurr_map {α : Type} (p : BasicBlock → α) (g : ControlFlowGraph)
    (f : BasicBlock → BasicBlock) (hf : ∀ b, p (f b) = p b) :
    (g.modifyCurr f)._nodes.map p = g._nodes.map p :=
  setAt_map p g._nodes g.curr f hf

theorem modifyCurr_length (g : ControlFlowGraph) (f : BasicBlock → BasicBlock) :
    (g.modifyCurr f)._nodes.length = g._nodes.length :=
  setAt_length g._nodes g.curr f

theorem modifyCurr_curr (g : ControlFlowGraph) (f : BasicBlock → BasicBlock) :
    (g.modifyCurr f).curr = g.curr := rfl

/-- State invariant threaded through every operation: block start addresses
are pairwise distinct, block ids are strictly increasing in creation order,
all ids are below the process counter, and the cursor is in range. -/
def Inv (g : ControlFlowGraph) (c : Nat) : Prop :=
  (g._nodes.map BasicBlock.start).Nodup ∧
  (g._nodes.map BasicBlock.id).Pairwise (fun x y => x < y) ∧
  (∀ x ∈ g._nodes.map BasicBlock.id, x < c) ∧
  g.curr < g._nodes.length

theorem inv_new (c : Nat) (e : Int) :
    Inv (ControlFlowGraph.new c e).1 (ControlFlowGraph.new c e).2 := by
  refine ⟨?_, ?_, ?_, ?_⟩ <;>
    simp [ControlFlowGraph.new, BasicBlock.make]

theorem inv_mono (g : ControlFlowGraph) (c c' : Nat) (hcc : c ≤ c')
    (h : Inv g c) : Inv g c' := by
  obtain ⟨h1, h2, h3, h4⟩ := h
  exact ⟨h1, h2, fun x hx => lt_of_lt_of_le (h3 x hx) hcc, h4⟩

theorem inv_query (c : Nat) (g : ControlFlowGraph) (a : Int) (h : Inv g c) :
    Inv (ControlFlowGraph.query_block_or_create c g a).2.1
        (ControlFlowGraph.query_block_or_create c g a).2.2 := by
  obtain ⟨h1, h2, h3, h4⟩ := h
  rcases query_cases c g a with ⟨e1, e2⟩ | ⟨e1, e2, e3, e4⟩
  · rw [e1, e2]; exact ⟨h1, h2, h3, h4⟩
  · refine ⟨?_, ?_, ?_, ?_⟩
    · rw [e1]
      rw [List.map_append, List.nodup_append]
      refine ⟨h1, by simp, ?_⟩
      intro x hx hy
      simp only [List.map_cons, List.map_nil, List.mem_cons, List.not_mem_nil,
        or_false] at hy
      obtain ⟨b, hb, rfl⟩ := List.mem_map.mp hx
      exact e3 b hb (hy ▸ rfl)
    · rw [e1]
      rw [List.map_append, List.pairwise_append]
      refine ⟨h2, by simp, ?_⟩
      intro x hx y hy
      simp only [List.map_cons, List.map_nil, List.mem_cons, List.not_mem_nil,
        or_false] at hy
      subst hy
      exact h3 x hx
    · rw [e1, e4]
      intro x hx
      rw [List.map_append] at hx
      rcases List.mem_append.mp hx with hx | hx
      · exact lt_trans (h3 x hx) (by omega)
      · simp only [List.map_cons, List.map_nil, List.mem_cons,
          List.not_mem_nil, or_false] at hx
        omega
    · rw [e1, e2]
      simp only [List.length_append, List.length_cons, List.length_nil]
      omega

theorem lt_modifyCurr_length (g : ControlFlowGraph) (f : BasicBlock → BasicBlock)
    (n : Nat) (h : n < g._nodes.length) : n < (g.modifyCurr f)._nodes.length := by
  rw [modifyCurr_length]; exact h

theorem inv_modifyCurr (g : ControlFlowGraph) (c : Nat)
    (f : BasicBlock → BasicBlock) (hs : ∀ b, (f b).start = b.start)
    (hi : ∀ b, (f b).id = b.id) (h : Inv g c) : Inv (g.modifyCurr f) c := by
  obtain ⟨h1, h2, h3, h4⟩ := h
  refine ⟨?_, ?_, ?_, ?_⟩
  · rw [modifyCurr_map BasicBlock.start g f hs]; exact h1
  · rw [modifyCurr_map BasicBlock.id g f hi]; exact h2
  · rw [modifyCurr_map BasicBlock.id g f hi]; exact h3
  · rw [modifyCurr_length]; exact h4

theorem inv_recordStep (g : ControlFlowGraph) (cur : BasicBlock) (pc : Int)
    (r : Record) (c : Nat) (h : Inv g c) : Inv (g.recordStep cur pc r) c := by
  unfold ControlFlowGraph.recordStep
  by_cases hc : dictContains cur.block pc
  · rw [if_pos (by simpa using hc)]; exact h
  · rw [if_neg (by simpa using hc)]
    exact inv_modifyCurr g c _ (fun b => rfl) (fun b => rfl) h

theorem inv_doJmp (c : Nat) (g1 : ControlFlowGraph) (sa : Int) (h : Inv g1 c) :
    Inv (ControlFlowGraph.doJmp c g1 sa).1 (ControlFlowGraph.doJmp c g1 sa).2 := by
  have hq := inv_query c g1 sa h
  obtain ⟨h1, h2, h3, h4⟩ :=
    inv_modifyCurr _ _ (fun b => b.add_edge
      (ControlFlowGraph.query_block_or_create c g1 sa).1.1 true)
      (fun b => rfl) (fun b => rfl) hq
  refine ⟨h1, h2, h3, ?_⟩
  show (ControlFlowGraph.query_block_or_create c g1 sa).1.2 <
    (((ControlFlowGraph.query_block_or_create c g1 sa).2.1).modifyCurr
      (fun b => b.add_edge
        (ControlFlowGraph.query_block_or_create c g1 sa).1.1 true))._nodes.length
  rw [modifyCurr_length]
  exact query_fwd_lt c g1 sa

theorem inv_doJccTaken (c : Nat) (g1 : ControlFlowGraph) (fa sa : Int)
    (h : Inv g1 c) :
    Inv (ControlFlowGraph.doJccTaken c g1 fa sa).1
        (ControlFlowGraph.doJccTaken c g1 fa sa).2 := by
  have hq1 := inv_query c g1 fa h
  have hg3 := inv_modifyCurr _ _ (fun b => b.add_edge
      (ControlFlowGraph.query_block_or_create c g1 fa).1.1 false)
      (fun b => rfl) (fun b => rfl) hq1
  have hq2 := inv_query _ _ sa hg3
  obtain ⟨h1, h2, h3, h4⟩ := inv_modifyCurr _ _ (fun b => b.add_edge
      (ControlFlowGraph.query_block_or_create
        (ControlFlowGraph.query_block_or_create c g1 fa).2.2
        (((ControlFlowGraph.query_block_or_create c g1 fa).2.1).modifyCurr
          (fun b => b.add_edge
            (ControlFlowGraph.query_block_or_create c g1 fa).1.1 false)) sa).1.1
      true) (fun b => rfl) (fun b => rfl) hq2
  refine ⟨h1, h2, h3, ?_⟩
  exact lt_modifyCurr_length _ _ _ (query_fwd_lt _ _ sa)

theorem inv_doJccNotTaken (c : Nat) (g1 : ControlFlowGraph) (fa sa : Int)
    (h : Inv g1 c) :
    Inv (ControlFlowGraph.doJccNotTaken c g1 fa sa).1
        (ControlFlowGraph.doJccNotTaken c g1 fa sa).2 := by
  have hq1 := inv_query c g1 fa h
  have hg3 := inv_modifyCurr _ _ (fun b => b.add_edge
      (ControlFlowGraph.query_block_or_create c g1 fa).1.1 true)
      (fun b => rfl) (fun b => rfl) hq1
  have hq2 := inv_query _ _ sa hg3
  obtain ⟨h1, h2, h3, h4⟩ := inv_modifyCurr _ _ (fun b => b.add_edge
      (ControlFlowGraph.query_block_or_create
        (ControlFlowGraph.query_block_or_create c g1 fa).2.2
        (((ControlFlowGraph.query_block_or_create c g1 fa).2.1).modifyCurr
          (fun b => b.add_edge
            (ControlFlowGraph.query_block_or_create c g1 fa).1.1 true)) sa).1.1
      false) (fun b => rfl) (fun b => rfl) hq2
  refine ⟨h1, h2, h3, ?_⟩
  refine lt_modifyCurr_length _ _ _ ?_
  refine lt_of_lt_of_le ?_ (query_len_le _ _ sa)
  rw [modifyCurr_length]
  exact query_fwd_lt c g1 fa

theorem inv_execute (c : Nat) (g : ControlFlowGraph) (pc : Int) (r : Record)
    (g' : ControlFlowGraph) (c' : Nat) (h : Inv g c)
    (he : ControlFlowGraph.execute c g pc r = .ok (g', c')) : Inv g' c' := by
  unfold ControlFlowGraph.execute at he
  cases hcur : g._nodes.get? g.curr with
  | none => rw [hcur] at he; simp at he
  | some cur =>
    rw [hcur] at he
    dsimp only at he
    by_cases hlt : pc < cur.start
    · rw [if_pos hlt] at he; simp at he
    · rw [if_neg hlt] at he
      have hInv1 : Inv (g.recordStep cur pc r) c := inv_recordStep g cur pc r c h
      cases r with
      | instr i =>
        simp only [Except.ok.injEq, Prod.mk.injEq] at he
        obtain ⟨rfl, rfl⟩ := he
        exact hInv1
      | jump j =>
        obtain ⟨nm, sa, jt, fa⟩ := j
        cases jt with
        | JMP =>
          simp only [Except.ok.injEq] at he
          have hi := inv_doJmp c
            (g.recordStep cur pc (Record.jump ⟨nm, sa, JumpType.JMP, fa⟩)) sa hInv1
          rw [he] at hi
          exact hi
        | JCC_TAKEN =>
          cases fa with
          | none => simp at he
          | some fv =>
            simp only [Except.ok.injEq] at he
            have hi := inv_doJccTaken c
              (g.recordStep cur pc
                (Record.jump ⟨nm, sa, JumpType.JCC_TAKEN, some fv⟩)) fv sa hInv1
            rw [he] at hi
            exact hi
        | JCC_NOT_TAKEN =>
          cases fa with
          | none => simp at he
          | some fv =>
            simp only [Except.ok.injEq] at he
            have hi := inv_doJccNotTaken c
              (g.recordStep cur pc
                (Record.jump ⟨nm, sa, JumpType.JCC_NOT_TAKEN, some fv⟩)) fv sa hInv1
            rw [he] at hi
            exact hi

theorem inv_step (s : ControlFlowGraph × Nat) (call : Int × Record)
    (h : Inv s.1 s.2) : Inv (step s call).1 (step s call).2 := by
  unfold step
  cases he : ControlFlowGraph.execute s.2 s.1 call.1 call.2 with
  | error e => exact h
  | ok r => exact inv_execute s.2 s.1 call.1 call.2 r.1 r.2 h (by rw [he])

theorem inv_runTrace (calls : List (Int × Record)) :
    ∀ s : ControlFlowGraph × Nat, Inv s.1 s.2 →
      Inv (runTrace s calls).1 (runTrace s calls).2 := by
  induction calls with
  | nil => intro s h; exact h
  | cons call rest ih =>
    intro s h
    exact ih (step s call) (inv_step s call h)

theorem modifyCurr_get?_map {α : Type} (p : BasicBlock → α) (g : ControlFlowGraph)
    (f : BasicBlock → BasicBlock) (hf : ∀ b, p (f b) = p b) (j : Nat) :
    ((g.modifyCurr f)._nodes.get? j).map p = (g._nodes.get? j).map p :=
  setAt_get?_map p g._nodes g.curr j f hf

theorem queryModify_get?_map_block (c : Nat) (g : ControlFlowGraph) (a : Int)
    (e : Nat) (t : Bool) (j : Nat) (hj : j < g._nodes.length) :
    ((((ControlFlowGraph.query_block_or_create c g a).2.1).modifyCurr
        (fun b => b.add_edge e t))._nodes.get? j).map BasicBlock.block
      = (g._nodes.get? j).map BasicBlock.block := by
  have h1 := modifyCurr_get?_map BasicBlock.block
    (ControlFlowGraph.query_block_or_create c g a).2.1
    (fun b => b.add_edge e t) (fun b => rfl) j
  rw [query_get?_preserve c g a j hj] at h1
  exact h1

theorem queryModify_len_le (c : Nat) (g : ControlFlowGraph) (a : Int)
    (e : Nat) (t : Bool) :
    g._nodes.length ≤ (((ControlFlowGraph.query_block_or_create c g a).2.1).modifyCurr
      (fun b => b.add_edge e t))._nodes.length := by
  rw [modifyCurr_length]
  exact query_len_le c g a

theorem doJmp_get?_map_block (c : Nat) (g1 : ControlFlowGraph) (sa : Int)
    (j : Nat) (hj : j < g1._nodes.length) :
    ((ControlFlowGraph.doJmp c g1 sa).1._nodes.get? j).map BasicBlock.block
      = (g1._nodes.get? j).map BasicBlock.block :=
  queryModify_get?_map_block c g1 sa
    (ControlFlowGraph.query_block_or_create c g1 sa).1.1 true j hj

theorem doJccTaken_get?_map_block (c : Nat) (g1 : ControlFlowGraph) (fa sa : Int)
    (j : Nat) (hj : j < g1._nodes.length) :
    ((ControlFlowGraph.doJccTaken c g1 fa sa).1._nodes.get? j).map BasicBlock.block
      = (g1._nodes.get? j).map BasicBlock.block := by
  have h1 := queryModify_get?_map_block c g1 fa
    (ControlFlowGraph.query_block_or_create c g1 fa).1.1 false j hj
  have h2 := queryModify_get?_map_block
    (ControlFlowGraph.query_block_or_create c g1 fa).2.2
    (((ControlFlowGraph.query_block_or_create c g1 fa).2.1).modifyCurr
      (fun b => b.add_edge (ControlFlowGraph.query_block_or_create c g1 fa).1.1 false))
    sa
    (ControlFlowGraph.query_block_or_create
      (ControlFlowGraph.query_block_or_create c g1 fa).2.2
      (((ControlFlowGraph.query_block_or_create c g1 fa).2.1).modifyCurr
        (fun b => b.add_edge
          (ControlFlowGraph.query_block_or_create c g1 fa).1.1 false)) sa).1.1
    true j
    (lt_of_lt_of_le hj (queryModify_len_le c g1 fa
      (ControlFlowGraph.query_block_or_create c g1 fa).1.1 false))
  rw [h1] at h2
  exact h2

theorem doJccNotTaken_get?_map_block (c : Nat) (g1 : ControlFlowGraph) (fa sa : Int)
    (j : Nat) (hj : j < g1._nodes.length) :
    ((ControlFlowGraph.doJccNotTaken c g1 fa sa).1._nodes.get? j).map BasicBlock.block
      = (g1._nodes.get? j).map BasicBlock.block := by
  have h1 := queryModify_get?_map_block c g1 fa
    (ControlFlowGraph.query_block_or_create c g1 fa).1.1 true j hj
  have h2 := queryModify_get?_map_block
    (ControlFlowGraph.query_block_or_create c g1 fa).2.2
    (((ControlFlowGraph.query_block_or_create c g1 fa).2.1).modifyCurr
      (fun b => b.add_edge (ControlFlowGraph.query_block_or_create c g1 fa).1.1 true))
    sa
    (ControlFlowGraph.query_block_or_create
      (ControlFlowGraph.query_block_or_create c g1 fa).2.2
      (((ControlFlowGraph.query_block_or_create c g1 fa).2.1).modifyCurr
        (fun b => b.add_edge
          (ControlFlowGraph.query_block_or_create c g1 fa).1.1 true)) sa).1.1
    false j
    (lt_of_lt_of_le hj (queryModify_len_le c g1 fa
      (ControlFlowGraph.query_block_or_create c g1 fa).1.1 true))
  rw [h1] at h2
  exact h2

theorem tail_cursor_start (c2 : Nat) (gmid : ControlFlowGraph) (sa : Int)
    (i : Nat) (e2 : Nat) (t2 : Bool) (a : Int)
    (hi : i < gmid._nodes.length)
    (hstart : (gmid._nodes.get? i).map BasicBlock.start = some a) :
    ((((ControlFlowGraph.query_block_or_create c2 gmid sa).2.1).modifyCurr
        (fun b => b.add_edge e2 t2))._nodes.get? i).map BasicBlock.start = some a := by
  have hm2 := modifyCurr_get?_map BasicBlock.start
    (ControlFlowGraph.query_block_or_create c2 gmid sa).2.1
    (fun b => b.add_edge e2 t2) (fun b => rfl) i
  rw [query_get?_preserve c2 gmid sa i hi] at hm2
  rw [hm2]
  exact hstart

/-- After a `JCC_NOT_TAKEN` transition the cursor sits on a block whose start
address is the jump's failure address. -/
theorem doJccNotTaken_cursor_start (c : Nat) (g1 : ControlFlowGraph) (fa sa : Int) :
    ((ControlFlowGraph.doJccNotTaken c g1 fa sa).1._nodes.get?
      (ControlFlowGraph.doJccNotTaken c g1 fa sa).1.curr).map BasicBlock.start
      = some fa := by
  refine tail_cursor_start _ _ _ _ _ _ _ ?_ ?_
  · rw [modifyCurr_length]
    exact query_fwd_lt c g1 fa
  · have hm1 := modifyCurr_get?_map BasicBlock.start
      (ControlFlowGraph.query_block_or_create c g1 fa).2.1
      (fun b => b.add_edge (ControlFlowGraph.query_block_or_create c g1 fa).1.1 true)
      (fun b => rfl) (ControlFlowGraph.query_block_or_create c g1 fa).1.2
    rw [query_fwd_start c g1 fa] at hm1
    exact hm1

/-- After a `JCC_TAKEN` transition the cursor sits on a block whose start
address is the jump's success address. -/
theorem doJccTaken_cursor_start (c : Nat) (g1 : ControlFlowGraph) (fa sa : Int) :
    ((ControlFlowGraph.doJccTaken c g1 fa sa).1._nodes.get?
      (ControlFlowGraph.doJccTaken c g1 fa sa).1.curr).map BasicBlock.start
      = some sa := by
  have hm := modifyCurr_get?_map BasicBlock.start
    (ControlFlowGraph.query_block_or_create
      (ControlFlowGraph.query_block_or_create c g1 fa).2.2
      (((ControlFlowGraph.query_block_or_create c g1 fa).2.1).modifyCurr
        (fun b => b.add_edge
          (ControlFlowGraph.query_block_or_create c g1 fa).1.1 false)) sa).2.1
    (fun b => b.add_edge
      (ControlFlowGraph.query_block_or_create
        (ControlFlowGraph.query_block_or_create c g1 fa).2.2
        (((ControlFlowGraph.query_block_or_create c g1 fa).2.1).modifyCurr
          (fun b => b.add_edge
            (ControlFlowGraph.query_block_or_create c g1 fa).1.1 false)) sa).1.1
      true)
    (fun b => rfl)
    (ControlFlowGraph.query_block_or_create
      (ControlFlowGraph.query_block_or_create c g1 fa).2.2
      (((ControlFlowGraph.query_block_or_create c g1 fa).2.1).modifyCurr
        (fun b => b.add_edge
          (ControlFlowGraph.query_block_or_create c g1 fa).1.1 false)) sa).1.2
  rw [query_fwd_start
    (ControlFlowGraph.query_block_or_create c g1 fa).2.2
    (((ControlFlowGraph.query_block_or_create c g1 fa).2.1).modifyCurr
      (fun b => b.add_edge
        (ControlFlowGraph.query_block_or_create c g1 fa).1.1 false)) sa] at hm
  exact hm

/-- After an unconditional `JMP` transition the cursor sits on a block whose
start address is the jump's success address. -/
theorem doJmp_cursor_start (c : Nat) (g1 : ControlFlowGraph) (sa : Int) :
    ((ControlFlowGraph.doJmp c g1 sa).1._nodes.get?
      (ControlFlowGraph.doJmp c g1 sa).1.curr).map BasicBlock.start = some sa := by
  have hm := modifyCurr_get?_map BasicBlock.start
    (ControlFlowGraph.query_block_or_create c g1 sa).2.1
    (fun b => b.add_edge (ControlFlowGraph.query_block_or_create c g1 sa).1.1 true)
    (fun b => rfl) (ControlFlowGraph.query_block_or_create c g1 sa).1.2
  rw [query_fwd_start c g1 sa] at hm
  exact hm

theorem dictSet_keys_of_contains {α β : Type} [DecidableEq α]
    (d : List (α × β)) (k : α) (v : β) (h : dictContains d k = true) :
    (dictSet d k v).map Prod.fst = d.map Prod.fst := by
  induction d with
  | nil => simp [dictContains] at h
  | cons p rest ih =>
    unfold dictSet
    unfold dictContains at h
    by_cases hk : p.1 = k
    · rw [if_pos hk]
      simp [hk]
    · rw [if_neg hk] at h
      rw [if_neg hk]
      simp [ih h]

theorem mapME_ok {α β : Type} (f : α → Except PyErr β) (l : List α) (ls : List β)
    (h : mapME f l = Except.ok ls) :
    ls.length = l.length ∧
    ∀ i a, l.get? i = some a → ∃ b, f a = Except.ok b ∧ ls.get? i = some b := by
  induction l generalizing ls with
  | nil =>
    unfold mapME at h
    simp only [Except.ok.injEq] at h
    subst h
    exact ⟨rfl, by intro i a ha; simp at ha⟩
  | cons a rest ih =>
    unfold mapME at h
    cases hfa : f a with
    | error e => rw [hfa] at h; simp at h
    | ok b =>
      rw [hfa] at h
      cases hrest : mapME f rest with
      | error e => rw [hrest] at h; simp at h
      | ok bs =>
        rw [hrest] at h
        simp only [Except.ok.injEq] at h
        subst h
        obtain ⟨hlen, hget⟩ := ih bs hrest
        refine ⟨by simp [hlen], ?_⟩
        intro i x hx
        cases i with
        | zero =>
          simp only [List.get?] at hx
          injection hx with hx
          subst hx
          exact ⟨b, hfa, rfl⟩
        | succ n =>
          simp only [List.get?] at hx ⊢
          exact hget n x hx

/-- Observable filesystem and subprocess actions of `png` and `pdf`. -/
inductive FsEvent where
  | writeFile (name : String) (lines : List String)
  | runShell (cmd : String) (exitCode : Int)
  | removeFile (name : String)
deriving DecidableEq

/-- ControlFlowGraph.png: writes `output.dot`, invokes the external renderer
through `subprocess.run(..., shell=True)` (whose exit code — an input from
the environment — is never inspected), then removes `output.dot`.  Returns
the action trace and the call's outcome. -/
def ControlFlowGraph.png (g : ControlFlowGraph) (output_name : String)
    (rendererExit : Int) : List FsEvent × Except PyErr Unit :=
  match g.dot with
  | .error e => ([], .error e)
  | .ok ls =>
      ([.writeFile "output.dot" ls,
        .runShell ("dot -Tpng -Gdpi=300 output.dot -o " ++ output_name ++ ".png")
          rendererExit,
        .removeFile "output.dot"], .ok ())

/-- ControlFlowGraph.pdf: same shape as `png` with the pdf command line. -/
def ControlFlowGraph.pdf (g : ControlFlowGraph) (output_name : String)
    (rendererExit : Int) : List FsEvent × Except PyErr Unit :=
  match g.dot with
  | .error e => ([], .error e)
  | .ok ls =>
      ([.writeFile "output.dot" ls,
        .runShell ("dot -Tpdf -Gdpi=300 output.dot -o " ++ output_name ++ ".pdf")
          rendererExit,
        .removeFile "output.dot"], .ok ())

/-! Concrete fixtures used by the claim theorems. -/

/-- Fixture for C1: entry 0, jump to 5, then jump from block 5 back to 0. -/
def gC1 : ControlFlowGraph :=
  (runTrace (ControlFlowGraph.new 0 0)
    [(1, Record.jump ⟨"jmp", 5, JumpType.JMP, none⟩),
     (6, Record.jump ⟨"jmp", 0, JumpType.JMP, none⟩)]).1

/-- Fixture for C2: entry 0 and one jump that created a block at 5. -/
def gC2 : ControlFlowGraph :=
  (runTrace (ControlFlowGraph.new 0 0)
    [(1, Record.jump ⟨"jmp", 5, JumpType.JMP, none⟩)]).1

/-- Fixture for C3's counterexample: blocks at 0 and 5 both exist and the
cursor is back on block 0 when a JCC_NOT_TAKEN with failure address 5 runs. -/
def gC3 : ControlFlowGraph :=
  (runTrace (ControlFlowGraph.new 0 0)
    [(1, Record.jump ⟨"jmp", 5, JumpType.JMP, none⟩),
     (6, Record.jump ⟨"jmp", 0, JumpType.JMP, none⟩),
     (2, Record.jump ⟨"jcc", 7, JumpType.JCC_NOT_TAKEN, some 5⟩)]).1

/-- Fixture for C3's scenario: fresh graph, entry 0, one
`execute(1, Jump(JCC_NOT_TAKEN, success=10, failure=5))`. -/
def gScen4 : ControlFlowGraph :=
  (runTrace (ControlFlowGraph.new 0 0)
    [(1, Record.jump ⟨"jcc", 10, JumpType.JCC_NOT_TAKEN, some 5⟩)]).1

/-- Fixture for C7: entry 0 and one jump that created a block at 5, so the
graph has two blocks with distinct node statements. -/
def gC7 : ControlFlowGraph :=
  (runTrace (ControlFlowGraph.new 0 0)
    [(1, Record.jump ⟨"jmp", 5, JumpType.JMP, none⟩)]).1

/-! Claim theorems. -/

/-- C1: evaluation of the failing input.  The trace jumps 0→5 then 5→0, so
the transition table produced `traversed=true` once for the pair
(block 0, block 5) and once for (block 5, block 0).  The code instead stores
block 5's traversal under key 1 — the index of block 0 in the reversed
enumeration at lookup time — which the create path of block resolution and
the serializer's `self._nodes[edge_index]` both interpret as block 5 itself:
block 5's edge dict is `[(1, 1)]`, it has no entry under key 0 (the
creation-order position of block 0), and the emitted edge statement is a
`node_5 -> node_5` self-edge of weight 1, while no edge statement for
block 5 → block 0 exists. -/
theorem c1_edge_accounting_bug :
    gC1._nodes.map BasicBlock.start = [0, 5] ∧
    (gC1._nodes.get? 1).map BasicBlock.edges = some [(1, 1)] ∧
    (gC1._nodes.get? 1).map (fun b => dictGet b.edges 0) = some none ∧
    (gC1._nodes.get? 1).map (fun b => gC1.edgeLinesFor b)
      = some (Except.ok ["\tnode_5 -> node_5 [label=\"1\"][color=\"blue\"]\n"]) :=
  ⟨rfl, rfl, rfl, rfl⟩

/-- C2: evaluation of the failing input.  On a graph whose blocks (in
creation order) start at 0 and 5, looking up address 0 returns index 1, but
position 1 of the creation-order block sequence holds the block starting
at 5; and creating a block for fresh address 7 returns index 2, but position
2 of the most-recent-first (reversed) sequence then holds the block starting
at 0.  Neither reading of "the graph's block sequence" satisfies
`blocks[i].start = t` for both return paths. -/
theorem c2_query_index_bug :
    gC2._nodes.map BasicBlock.start = [0, 5] ∧
    (ControlFlowGraph.query_block_or_create 2 gC2 0).1.1 = 1 ∧
    ¬ ((gC2._nodes.get? (ControlFlowGraph.query_block_or_create 2 gC2 0).1.1).map
        BasicBlock.start = some 0) ∧
    (ControlFlowGraph.query_block_or_create 2 gC2 7).1.1 = 2 ∧
    ¬ (((ControlFlowGraph.query_block_or_create 2 gC2 7).2.1._nodes.reverse.get?
        (ControlFlowGraph.query_block_or_create 2 gC2 7).1.1).map
        BasicBlock.start = some 7) := by
  refine ⟨rfl, rfl, ?_, rfl, ?_⟩ <;> decide

/-- C3 counterexample: on `gC3` the third call is a JCC_NOT_TAKEN whose
failure block (start 5) already exists at creation-order position 1 with the
edge from block 0 to it already registered under key 1 with count 1.  The
claim requires that call to register its `traversed=true` edge to the
failure block, i.e. the count under the key denoting block 5 would become
2; instead key 1 still holds 1 and the increment went to a fresh key 0,
which the program's own index resolution reads as block 0 itself. -/
theorem c3_counterexample :
    gC3._nodes.map BasicBlock.start = [0, 5, 7] ∧
    (gC3._nodes.get? 0).map BasicBlock.edges = some [(1, 1), (0, 1), (2, 0)] ∧
    ¬ ((gC3._nodes.get? 0).map (fun b => dictGet b.edges 1) = some (some 2)) ∧
    (gC3._nodes.get? 0).map (fun b => dictGet b.edges 0) = some (some 1) ∧
    (gC3._nodes.get? 0).map BasicBlock.start = some 0 := by
  refine ⟨rfl, rfl, ?_, rfl, rfl⟩
  decide

/-- C3 (amended): a JCC_NOT_TAKEN execute call (with the cursor valid and
the assert satisfied) performs exactly `doJccNotTaken` after the record
step — i.e. it first adds a `traversed=true` edge under the index block
resolution returns for the failure address, then a `traversed=false` edge
under the index returned for the success address, and moves the cursor to
the block object block resolution returned for the failure address; that
cursor block's start is the failure address, and block resolution always
returns (as the aliased object) a block whose start is the requested
address.  In the fresh-graph scenario (entry 0,
`execute(1, Jump(JCC_NOT_TAKEN, success=10, failure=5))`) both targets are
newly created, the stored keys do denote the failure and success blocks, and
the result is edges (0→5)=1, (0→10)=0 with the cursor on the block starting
at 5. -/
theorem c3_transition :
    (∀ (c : Nat) (g : ControlFlowGraph) (pc : Int) (nm : String) (sa fa : Int)
      (cur : BasicBlock), g._nodes.get? g.curr = some cur → cur.start ≤ pc →
      ControlFlowGraph.execute c g pc
          (Record.jump ⟨nm, sa, JumpType.JCC_NOT_TAKEN, some fa⟩)
        = Except.ok (ControlFlowGraph.doJccNotTaken c
            (g.recordStep cur pc
              (Record.jump ⟨nm, sa, JumpType.JCC_NOT_TAKEN, some fa⟩)) fa sa)) ∧
    (∀ (c : Nat) (g1 : ControlFlowGraph) (fa sa : Int),
      ((ControlFlowGraph.doJccNotTaken c g1 fa sa).1._nodes.get?
        (ControlFlowGraph.doJccNotTaken c g1 fa sa).1.curr).map BasicBlock.start
        = some fa) ∧
    (∀ (c : Nat) (g : ControlFlowGraph) (a : Int),
      ((ControlFlowGraph.query_block_or_create c g a).2.1._nodes.get?
        (ControlFlowGraph.query_block_or_create c g a).1.2).map BasicBlock.start
        = some a) ∧
    (gScen4._nodes.map BasicBlock.start = [0, 5, 10] ∧
      (gScen4._nodes.get? 0).map BasicBlock.edges = some [(1, 1), (2, 0)] ∧
      gScen4.curr = 1 ∧
      (gScen4._nodes.get? 1).map BasicBlock.start = some 5 ∧
      (gScen4._nodes.get? 2).map BasicBlock.start = some 10) := by
  refine ⟨?_, ?_, ?_, rfl, rfl, rfl, rfl, rfl⟩
  · intro c g pc nm sa fa cur hcur hle
    unfold ControlFlowGraph.execute
    rw [hcur]
    dsimp only
    rw [if_neg (not_lt.mpr hle)]
  · intro c g1 fa sa
    exact doJccNotTaken_cursor_start c g1 fa sa
  · intro c g a
    exact query_fwd_start c g a

/-- C3 witness: the general transition clause applied to the fresh graph of
the scenario, with both hypotheses discharged concretely. -/
theorem c3_transition_witness :
    ControlFlowGraph.execute 1 (ControlFlowGraph.new 0 0).1 1
        (Record.jump ⟨"jcc", 10, JumpType.JCC_NOT_TAKEN, some 5⟩)
      = Except.ok (ControlFlowGraph.doJccNotTaken 1
          ((ControlFlowGraph.new 0 0).1.recordStep ⟨0, 0, [], []⟩ 1
            (Record.jump ⟨"jcc", 10, JumpType.JCC_NOT_TAKEN, some 5⟩)) 5 10) :=
  c3_transition.1 1 (ControlFlowGraph.new 0 0).1 1 "jcc" 10 5 ⟨0, 0, [], []⟩ rfl
    (by decide)

/-- C4 counterexample: `add_instruction` with an address already present is
not a no-op — it overwrites the stored record. -/
theorem c4_counterexample :
    ((⟨0, 0, [(5, Record.instr ⟨"a", ""⟩)], []⟩ : BasicBlock).add_instruction 5
        (Record.instr ⟨"b", ""⟩)).block
      = [(5, Record.instr ⟨"b", ""⟩)] ∧
    ¬ (((⟨0, 0, [(5, Record.instr ⟨"a", ""⟩)], []⟩ : BasicBlock).add_instruction 5
        (Record.instr ⟨"b", ""⟩)).block
      = (⟨0, 0, [(5, Record.instr ⟨"a", ""⟩)], []⟩ : BasicBlock).block) := by
  refine ⟨rfl, ?_⟩
  decide

/-- C4 (amended): `add_instruction` never mutates `start`, and with an
already-present address it keeps the key sequence unchanged (only the stored
record is overwritten); the idempotence the spec describes is enforced by
`execute`, which skips the insertion when the program counter is already in
the current block, so such a call leaves the instruction map of every
pre-existing block unchanged. -/
theorem c4_amended :
    (∀ (b : BasicBlock) (a : Int) (r : Record),
      (b.add_instruction a r).start = b.start) ∧
    (∀ (b : BasicBlock) (a : Int) (r : Record), dictContains b.block a = true →
      (b.add_instruction a r).block.map Prod.fst = b.block.map Prod.fst) ∧
    (∀ (c : Nat) (g : ControlFlowGraph) (pc : Int) (r : Record)
      (cur : BasicBlock) (g' : ControlFlowGraph) (c' : Nat),
      g._nodes.get? g.curr = some cur → dictContains cur.block pc = true →
      ControlFlowGraph.execute c g pc r = Except.ok (g', c') →
      ∀ j, j < g._nodes.length →
        (g'._nodes.get? j).map BasicBlock.block
          = (g._nodes.get? j).map BasicBlock.block) := by
  refine ⟨fun b a r => rfl, ?_, ?_⟩
  · intro b a r h
    exact dictSet_keys_of_contains b.block a r h
  · intro c g pc r cur g' c' hcur hmem he j hj
    unfold ControlFlowGraph.execute at he
    rw [hcur] at he
    dsimp only at he
    by_cases hlt : pc < cur.start
    · rw [if_pos hlt] at he; simp at he
    · rw [if_neg hlt] at he
      have hrec : g.recordStep cur pc r = g := by
        unfold ControlFlowGraph.recordStep
        rw [if_pos (by simpa using hmem)]
      rw [hrec] at he
      cases r with
      | instr i =>
        simp only [Except.ok.injEq, Prod.mk.injEq] at he
        obtain ⟨rfl, rfl⟩ := he
        rfl
      | jump jj =>
        obtain ⟨nm, sa, jt, fa⟩ := jj
        cases jt with
        | JMP =>
          simp only [Except.ok.injEq] at he
          have hp := doJmp_get?_map_block c g sa j hj
          rw [he] at hp
          exact hp
        | JCC_TAKEN =>
          cases fa with
          | none => simp at he
          | some fv =>
            simp only [Except.ok.injEq] at he
            have hp := doJccTaken_get?_map_block c g fv sa j hj
            rw [he] at hp
            exact hp
        | JCC_NOT_TAKEN =>
          cases fa with
          | none => simp at he
          | some fv =>
            simp only [Except.ok.injEq] at he
            have hp := doJccNotTaken_get?_map_block c g fv sa j hj
            rw [he] at hp
            exact hp

/-- C4 witness: the amended theorem applied at concrete inputs — a direct
overwrite keeps the keys, and re-executing a recorded address through
`execute` leaves the block's instruction map unchanged. -/
theorem c4_amended_witness :
    ((⟨0, 0, [(5, Record.instr ⟨"a", ""⟩)], []⟩ : BasicBlock).add_instruction 5
        (Record.instr ⟨"b", ""⟩)).block.map Prod.fst
      = (⟨0, 0, [(5, Record.instr ⟨"a", ""⟩)], []⟩ : BasicBlock).block.map Prod.fst ∧
    (((⟨[⟨0, 0, [(1, Record.instr ⟨"n", "o"⟩)], []⟩], 0⟩ :
        ControlFlowGraph))._nodes.get? 0).map BasicBlock.block
      = (((⟨[⟨0, 0, [(1, Record.instr ⟨"n", "o"⟩)], []⟩], 0⟩ :
        ControlFlowGraph))._nodes.get? 0).map BasicBlock.block :=
  ⟨c4_amended.2.1 ⟨0, 0, [(5, Record.instr ⟨"a", ""⟩)], []⟩ 5
      (Record.instr ⟨"b", ""⟩) rfl,
    c4_amended.2.2 7 ⟨[⟨0, 0, [(1, Record.instr ⟨"n", "o"⟩)], []⟩], 0⟩ 1
      (Record.instr ⟨"x", "y"⟩) ⟨0, 0, [(1, Record.instr ⟨"n", "o"⟩)], []⟩
      ⟨[⟨0, 0, [(1, Record.instr ⟨"n", "o"⟩)], []⟩], 0⟩ 7 rfl rfl rfl 0
      (by decide)⟩

/-- C5: constructing a `Jump` whose kind is conditional (`JCC_TAKEN` or
`JCC_NOT_TAKEN`) with an absent failure address always fails with the
validation error (`TypeError` in the source, the spec's `ValidationError`),
and no record instance is produced. -/
theorem c5_conditional_requires_failure (nm : String) (sa : Int) (jt : JumpType)
    (h : jt = JumpType.JCC_TAKEN ∨ jt = JumpType.JCC_NOT_TAKEN) :
    Jump.make nm sa jt none = Except.error PyErr.typeError ∧
    ∀ j : Jump, Jump.make nm sa jt none ≠ Except.ok j := by
  have hc : (jt = JumpType.JCC_NOT_TAKEN ∨ jt = JumpType.JCC_TAKEN) ∧
      (none : Option Int) = none := ⟨h.symm, rfl⟩
  constructor
  · unfold Jump.make
    rw [if_pos hc]
  · intro j hj
    unfold Jump.make at hj
    rw [if_pos hc] at hj
    cases hj

/-- C5 witness: a concrete conditional jump without a failure address. -/
theorem c5_witness :
    Jump.make "jne" 16 JumpType.JCC_TAKEN none = Except.error PyErr.typeError :=
  (c5_conditional_requires_failure "jne" 16 JumpType.JCC_TAKEN (Or.inl rfl)).1

/-- C6 counterexample: with the renderer exiting 2 (non-zero), both `png`
and `pdf` complete with a plain success value — no error of any kind is
surfaced to the caller. -/
theorem c6_counterexample :
    ((ControlFlowGraph.new 0 0).1.png "cfg" 2).2 = Except.ok () ∧
    ((ControlFlowGraph.new 0 0).1.pdf "cfg" 2).2 = Except.ok () :=
  ⟨rfl, rfl⟩

/-- C6 (amended): the renderer's exit status is never inspected — whenever
the dot serialization succeeds, `png` and `pdf` return success for every
exit code, performing exactly write-run-remove (so the temporary file is
removed even on renderer failure, but the failure itself is silently
swallowed rather than surfaced as a distinct error). -/
theorem c6_amended (g : ControlFlowGraph) (output_name : String)
    (exitCode : Int) (ls : List String) (h : g.dot = Except.ok ls) :
    g.png output_name exitCode
      = ([FsEvent.writeFile "output.dot" ls,
          FsEvent.runShell
            ("dot -Tpng -Gdpi=300 output.dot -o " ++ output_name ++ ".png")
            exitCode,
          FsEvent.removeFile "output.dot"], Except.ok ()) ∧
    g.pdf output_name exitCode
      = ([FsEvent.writeFile "output.dot" ls,
          FsEvent.runShell
            ("dot -Tpdf -Gdpi=300 output.dot -o " ++ output_name ++ ".pdf")
            exitCode,
          FsEvent.removeFile "output.dot"], Except.ok ()) := by
  constructor <;> simp [ControlFlowGraph.png, ControlFlowGraph.pdf, h]

/-- C6 witness: the amended theorem at the untouched entry graph with a
failing renderer (exit 7). -/
theorem c6_amended_witness :
    (ControlFlowGraph.new 0 0).1.png "cfg" 7
      = ([FsEvent.writeFile "output.dot"
            ["digraph pyCFG \x7b\n",
             "\tnode_0 [shape =box][label=\"Unexplored\"][color=\"webmaroon\"][penwidth=2][fontname = \"Comic Sans MS\"]\n",
             "\n", "\x7d\n"],
          FsEvent.runShell "dot -Tpng -Gdpi=300 output.dot -o cfg.png" 7,
          FsEvent.removeFile "output.dot"], Except.ok ()) :=
  (c6_amended (ControlFlowGraph.new 0 0).1 "cfg" 7
    ["digraph pyCFG \x7b\n",
     "\tnode_0 [shape =box][label=\"Unexplored\"][color=\"webmaroon\"][penwidth=2][fontname = \"Comic Sans MS\"]\n",
     "\n", "\x7d\n"] rfl).1

/-- C7 counterexample: on a two-block graph the serializer's node statements
come out in creation order (block 0 first), not in the most-recently-created
first order of the §4.3 lookup policy (which would put block 5 first). -/
theorem c7_counterexample :
    gC7._nodes.map BasicBlock.start = [0, 5] ∧
    gC7.dotNodeLines ≠ gC7._nodes.reverse.map nodeLine := by
  refine ⟨rfl, ?_⟩
  decide

/-- C7 (amended): the serializer emits exactly one node statement per block,
the i-th node statement being that of the i-th created block (creation
order, oldest first — not most-recent-first), and each block's edge
statements are emitted in registration order: the line list has one entry
per registered edge, the i-th line rendering the i-th entry of the edge
dict. -/
theorem c7_amended (g : ControlFlowGraph) :
    g.dotNodeLines.length = g._nodes.length ∧
    (∀ i b, g._nodes.get? i = some b →
      g.dotNodeLines.get? i = some (nodeLine b)) ∧
    (∀ b ls, g.edgeLinesFor b = Except.ok ls →
      ls.length = b.edge_strings.length ∧
      ∀ i t, b.edge_strings.get? i = some t →
        ∃ s, edgeLine g b b.edges.length t = Except.ok s ∧ ls.get? i = some s) := by
  refine ⟨List.length_map _ _, ?_, ?_⟩
  · intro i b hb
    unfold ControlFlowGraph.dotNodeLines
    rw [List.get?_map, hb]
    rfl
  · intro b ls h
    exact mapME_ok _ _ _ h

/-- C7 witness: on the two-block fixture the first emitted node statement is
that of the entry block (creation order). -/
theorem c7_amended_witness :
    gC7.dotNodeLines.get? 0
      = some (nodeLine ⟨0, 0, [(1, Record.jump ⟨"jmp", 5, JumpType.JMP, none⟩)],
          [(1, 1)]⟩) :=
  (c7_amended gC7).2.1 0 ⟨0, 0, [(1, Record.jump ⟨"jmp", 5, JumpType.JMP, none⟩)],
    [(1, 1)]⟩ rfl

/-- C8: after construction and after every sequence of `execute` calls, the
start addresses of the graph's blocks are pairwise distinct. -/
theorem c8_start_nodup (entry : Int) (c : Nat) (calls : List (Int × Record)) :
    ((runTrace (ControlFlowGraph.new c entry) calls).1._nodes.map
      BasicBlock.start).Nodup :=
  (inv_runTrace calls _ (inv_new c entry)).1

/-- C8 witness: the invariant evaluated on a concrete two-jump trace. -/
theorem c8_start_nodup_witness :
    ((runTrace (ControlFlowGraph.new 0 0)
      [(1, Record.jump ⟨"jmp", 5, JumpType.JMP, none⟩),
       (6, Record.jump ⟨"jmp", 0, JumpType.JMP, none⟩)]).1._nodes.map
      BasicBlock.start).Nodup :=
  c8_start_nodup 0 0 [(1, Record.jump ⟨"jmp", 5, JumpType.JMP, none⟩),
    (6, Record.jump ⟨"jmp", 0, JumpType.JMP, none⟩)]

/-- C9 counterexample: block ids come from a process-wide counter shared
across graph instances — a first graph created at counter 0 gets entry id 0,
and a second, fresh graph created afterwards in the same process gets entry
id 1, not an independent sequence of its own. -/
theorem c9_counterexample :
    (ControlFlowGraph.new 0 0).1._nodes.map BasicBlock.id = [0] ∧
    (ControlFlowGraph.new (ControlFlowGraph.new 0 0).2 0).1._nodes.map
      BasicBlock.id = [1] ∧
    ¬ ((ControlFlowGraph.new (ControlFlowGraph.new 0 0).2 0).1._nodes.map
        BasicBlock.id
      = (ControlFlowGraph.new 0 0).1._nodes.map BasicBlock.id) := by
  refine ⟨rfl, rfl, ?_⟩
  decide

/-- C9 (amended): ids are assigned once, at block creation, from the
process-wide monotonically increasing counter: a new graph's entry block
takes the current counter value (continuing the shared sequence rather than
starting its own), and within one graph the ids are strictly increasing in
creation order — hence never reused — after any sequence of `execute`
calls. -/
theorem c9_amended (c : Nat) (entry : Int) (calls : List (Int × Record)) :
    (ControlFlowGraph.new c entry).1._nodes.map BasicBlock.id = [c] ∧
    (ControlFlowGraph.new c entry).2 = c + 1 ∧
    ((runTrace (ControlFlowGraph.new c entry) calls).1._nodes.map
      BasicBlock.id).Pairwise (fun x y => x < y) := by
  refine ⟨rfl, rfl, ?_⟩
  exact (inv_runTrace calls _ (inv_new c entry)).2.1

/-- C9 witness: the amended theorem evaluated at counter 3 and a one-jump
trace. -/
theorem c9_amended_witness :
    (ControlFlowGraph.new 3 0).1._nodes.map BasicBlock.id = [3] ∧
    (ControlFlowGraph.new 3 0).2 = 3 + 1 ∧
    ((runTrace (ControlFlowGraph.new 3 0)
      [(1, Record.jump ⟨"jmp", 5, JumpType.JMP, none⟩)]).1._nodes.map
      BasicBlock.id).Pairwise (fun x y => x < y) :=
  c9_amended 3 0 [(1, Record.jump ⟨"jmp", 5, JumpType.JMP, none⟩)]

/-- C10: reading the `end` property always raises `TypeError` — it
subscripts the dict-keys view returned by `addresses`, which supports no
indexing — so the documented last address of a block is never obtainable
through this accessor, even when the block contains instructions. -/
theorem c10_end_typeerror (b : BasicBlock) :
    b.end' = Except.error PyErr.typeError := rfl

/-- C10 witness: a block that does contain instructions still raises. -/
theorem c10_end_typeerror_witness :
    (⟨0, 0, [(1, Record.instr ⟨"LOAD", "1"⟩)], []⟩ : BasicBlock).end'
      = Except.error PyErr.typeError :=
  c10_end_typeerror ⟨0, 0, [(1, Record.instr ⟨"LOAD", "1"⟩)], []⟩

end PyCFG
